import Mathlib

/-
  Verification development for the Gmsh-to-VTK mesh converter of the
  ObstructionMesh repository (src/src/TPZVtkGenerator.py).

  The embedding mirrors the Python source line by line:
  * the input file is modelled as a list of lines (each line a `String`,
    newline characters stripped; the Python code compares marker lines
    with a trailing newline, which is equivalent on this model);
  * Python `str.split()` (split on whitespace runs), `int(...)`,
    `float(...)` validation, list slicing (with negative-index wrap) and
    list indexing are reproduced by `pySplit`, `pyInt`, `isPyFloat`,
    `pySlice` and `pyGet`;
  * fallible code returns `Except ConvError`; each `ConvError`
    constructor corresponds to one failure site of the Python code
    (`DebugStop` calls and the raw `ValueError` / `IndexError` /
    `StopIteration` / `NameError` exceptions Python itself raises);
  * coordinate values are parsed with `float(...)` in the source but are
    never computed with: the embedding validates the token with
    `isPyFloat` and carries the token string (floating point itself is
    not modelled; no claim depends on coordinate arithmetic);
  * the output file is the `.ok` payload of `Do`: the source builds the
    whole output text in memory and performs a single write at the end,
    so a run that fails produces no output.
-/

namespace ObstructionMesh

/-! ## Python-like string and list primitives -/

/-- Accumulating worker for `pySplit`: splits a character list on runs of
whitespace, dropping empty fields (the behaviour of Python `str.split()`
with no argument). -/
def pySplitAux : List Char → List Char → List String
  | [], [] => []
  | [], cur => [String.mk cur.reverse]
  | c :: rest, cur =>
    if c.isWhitespace then
      match cur with
      | [] => pySplitAux rest []
      | _ => String.mk cur.reverse :: pySplitAux rest []
    else pySplitAux rest (c :: cur)

/-- Python `s.split()`: split on whitespace runs, no empty fields. -/
def pySplit (s : String) : List String := pySplitAux s.data []

/-- Strip leading and trailing whitespace from a character list
(Python `str.strip()`). -/
def pyStripChars (cs : List Char) : List Char :=
  ((cs.dropWhile Char.isWhitespace).reverse.dropWhile Char.isWhitespace).reverse

/-- Python `s.strip()`. -/
def pyStrip (s : String) : String := String.mk (pyStripChars s.data)

/-- Decimal digit accumulator: `some` of the value when every character is
a digit, `none` otherwise. -/
def digitsValAux : List Char → Nat → Option Nat
  | [], acc => some acc
  | c :: rest, acc =>
    if c.isDigit then digitsValAux rest (acc * 10 + (c.toNat - 48)) else none

/-- Integer syntax over a stripped character list: optional sign followed
by at least one digit. -/
def pyIntChars : List Char → Option Int
  | [] => none
  | '-' :: rest =>
    if rest.isEmpty then none
    else (digitsValAux rest 0).map (fun n => -(n : Int))
  | '+' :: rest =>
    if rest.isEmpty then none
    else (digitsValAux rest 0).map (fun n => (n : Int))
  | cs => (digitsValAux cs 0).map (fun n => (n : Int))

/-- Python `int(s)` for decimal strings: strips surrounding whitespace,
then requires an optional sign and a nonempty digit run; `none` models the
`ValueError` Python raises otherwise.  (Digit-group underscores and other
bases are not used by the mesh format and are not modelled.) -/
def pyInt (s : String) : Option Int := pyIntChars (pyStripChars s.data)

/-- Exponent digits of a float literal: optional sign, then digits. -/
def expDigits (cs : List Char) : Bool :=
  match cs with
  | '+' :: rest => !rest.isEmpty && rest.all Char.isDigit
  | '-' :: rest => !rest.isEmpty && rest.all Char.isDigit
  | _ => !cs.isEmpty && cs.all Char.isDigit

/-- Tail of a float literal after the mantissa: empty or an exponent. -/
def floatExpOk : List Char → Bool
  | [] => true
  | 'e' :: rest => expDigits rest
  | 'E' :: rest => expDigits rest
  | _ => false

/-- Unsigned float literal: digits with an optional fractional part, or a
leading dot with digits, optionally followed by an exponent. -/
def floatMantissa (cs : List Char) : Bool :=
  let intPart := cs.takeWhile Char.isDigit
  let rest := cs.dropWhile Char.isDigit
  match rest with
  | [] => !intPart.isEmpty
  | '.' :: rest2 =>
    let frac := rest2.takeWhile Char.isDigit
    let rest3 := rest2.dropWhile Char.isDigit
    (!intPart.isEmpty || !frac.isEmpty) && floatExpOk rest3
  | _ => !intPart.isEmpty && floatExpOk rest

/-- Whether Python `float(s)` succeeds on a numeric literal (the `inf` and
`nan` spellings, never produced by the mesh format, are not modelled). -/
def isPyFloat (s : String) : Bool :=
  match pyStripChars s.data with
  | '+' :: rest => floatMantissa rest
  | '-' :: rest => floatMantissa rest
  | cs => floatMantissa cs

/-- Python list slicing `xs[a:b]` with step 1, including the clamping and
negative-index wrapping rules. -/
def pySlice (xs : List α) (a b : Int) : List α :=
  let norm : Int → Nat := fun i =>
    if i < 0 then ((xs.length : Int) + i).toNat else min i.toNat xs.length
  (xs.take (norm b)).drop (norm a)

/-- Python list indexing `xs[i]`: negative indices wrap from the end;
`none` models the `IndexError` on out-of-range access. -/
def pyGet (xs : List α) (i : Int) : Option α :=
  if i < 0 then
    if (0 : Int) ≤ (xs.length : Int) + i then xs.get? ((xs.length : Int) + i).toNat
    else none
  else xs.get? i.toNat

/-- Concatenation of a list of strings (the shape in which the serializer
output is analysed). -/
def strJoin : List String → String
  | [] => ""
  | s :: rest => s ++ strJoin rest

/-! ## Error taxonomy

Each constructor corresponds to one kind of failure site in the source:
the named `DebugStop` checks, plus the raw exceptions Python raises
(`ValueError` from `int`/`float`/unpacking = `badToken`, `IndexError` =
`indexError`, `StopIteration` from `next` = `danglingReference`,
`KeyError` on the type table = `unsupportedElementType`, `NameError` on a
variable never assigned = `unboundVariable`, missing section marker =
`formatError`).  `nonTermination` is the fuel-exhaustion marker for the
element-scan loop, which the source runs unboundedly. -/

inductive ConvError where
  | formatError
  | countMismatch
  | tagRangeMismatch
  | danglingReference
  | unsupportedElementType
  | unsupportedField
  | badToken
  | indexError
  | unboundVariable
  | nonTermination
  deriving DecidableEq, Repr

/-- `Except`-valued `List.mapM` written as plain structural recursion
(first error wins, like a Python loop that raises). -/
def exMapM (f : α → Except ConvError β) : List α → Except ConvError (List β)
  | [] => .ok []
  | a :: as =>
    match f a with
    | .error e => .error e
    | .ok b =>
      match exMapM f as with
      | .error e => .error e
      | .ok bs => .ok (b :: bs)

/-! ## Data model (the dictionaries built by the Python parsers) -/

/-- One record of the physical-names table. -/
structure PhysName where
  dim : Int
  tag : Int
  name : String
  deriving DecidableEq, Repr

/-- A point (dimension-0) geometric entity, as parsed by `FindNodes`.
Coordinates are carried as their validated source tokens. -/
structure PointEntity where
  tag : Int
  x : String
  y : String
  z : String
  numPhysicalGroups : Int
  physicalGroups : List Int
  deriving DecidableEq, Repr

/-- A curve/surface/volume geometric entity, as parsed by `FindEntities`. -/
structure Entity where
  tag : Int
  numPhysicalGroups : Int
  physicalGroups : List Int
  numBoundary : Int
  boundaryTags : List Int
  deriving DecidableEq, Repr

/-- The four per-dimension entity tables (`self.fEntities`). -/
structure Entities where
  nodes : List PointEntity
  curves : List Entity
  surfaces : List Entity
  volumes : List Entity
  deriving DecidableEq, Repr

/-- One mesh vertex (`self.fNodes` record); coordinates are carried as
their validated source tokens. -/
structure MeshNode where
  tag : Int
  x : String
  y : String
  z : String
  deriving DecidableEq, Repr

/-- One parsed element (`self.fElements` record, before merging). -/
structure MeshElement where
  tag : Int
  dim : Int
  type : Int
  nodeTags : List Int
  entityTag : Int
  deriving DecidableEq, Repr

/-- An element after `MergeEntityAndElements` attached its resolved
physical groups. -/
structure ResolvedElement where
  tag : Int
  dim : Int
  type : Int
  nodeTags : List Int
  entityTag : Int
  physicalGroups : List Int
  deriving DecidableEq, Repr

namespace TPZVtkGenerator

/-! ## Parsers -/

/-- One record line of the physical-names section:
`dim, tag, name = line.split()` (exactly three fields or a `ValueError`),
then `int(dim)`, `int(tag)`, `name.strip()`. -/
def parsePhysLine (line : String) : Except ConvError PhysName :=
  match pySplit line with
  | [d, t, nm] =>
    match pyInt d with
    | none => .error .badToken
    | some dv =>
      match pyInt t with
      | none => .error .badToken
      | some tv => .ok ⟨dv, tv, pyStrip nm⟩
  | _ => .error .badToken

/-- `ParsePhysicalNames`: first line is the declared count, every further
line one record; afterwards the parsed size is checked against the
declared count. -/
def ParsePhysicalNames (physicalLines : List String) :
    Except ConvError (List PhysName) :=
  match physicalLines with
  | [] => .error .indexError
  | l0 :: rest =>
    match pyInt l0 with
    | none => .error .badToken
    | some nPhysical =>
      match exMapM parsePhysLine rest with
      | .error e => .error e
      | .ok recs =>
        if (recs.length : Int) ≠ nPhysical then .error .countMismatch
        else .ok recs

/-- One record line of `FindNodes` (point entities): tag at index 0,
three coordinate tokens at 1..3, the group count at index 4, and every
remaining token parsed as a physical-group tag. -/
def parsePointEntityLine (line : String) : Except ConvError PointEntity :=
  let info := pySplit line
  match info.get? 0 with
  | none => .error .indexError
  | some t0 =>
    match pyInt t0 with
    | none => .error .badToken
    | some tag =>
      match pySlice info 1 4 with
      | [x, y, z] =>
        match info.get? 4 with
        | none => .error .indexError
        | some npgTok =>
          match pyInt npgTok with
          | none => .error .badToken
          | some npg =>
            match exMapM (fun s =>
                match pyInt s with
                | none => Except.error ConvError.badToken
                | some v => Except.ok v) (info.drop 5) with
            | .error e => .error e
            | .ok pgs =>
              if isPyFloat x && isPyFloat y && isPyFloat z then
                .ok ⟨tag, x, y, z, npg, pgs⟩
              else .error .badToken
      | _ => .error .badToken

/-- `FindNodes` over a block of lines. -/
def FindNodes (nodeLines : List String) : Except ConvError (List PointEntity) :=
  exMapM parsePointEntityLine nodeLines

/-- One record line of `FindEntities` (curves/surfaces/volumes): tag at
index 0, the group count at the fixed offset 7, then that many group
tags, a boundary count, and the remaining tokens as boundary tags with
their sign stripped. -/
def parseEntityLine (line : String) : Except ConvError Entity :=
  let info := pySplit line
  match info.get? 0 with
  | none => .error .indexError
  | some t0 =>
    match pyInt t0 with
    | none => .error .badToken
    | some tag =>
      match info.get? 7 with
      | none => .error .indexError
      | some npgTok =>
        match pyInt npgTok with
        | none => .error .badToken
        | some npg =>
          match exMapM (fun s =>
              match pyInt s with
              | none => Except.error ConvError.badToken
              | some v => Except.ok v) (pySlice info 8 (8 + npg)) with
          | .error e => .error e
          | .ok pgs =>
            match info.get? (8 + pgs.length) with
            | none => .error .indexError
            | some nbTok =>
              match pyInt nbTok with
              | none => .error .badToken
              | some nb =>
                match exMapM (fun s =>
                    match pyInt s with
                    | none => Except.error ConvError.badToken
                    | some v =>
                      Except.ok (if v < 0 then -v else v))
                    (info.drop (8 + pgs.length + 1)) with
                | .error e => .error e
                | .ok bnds => .ok ⟨tag, npg, pgs, nb, bnds⟩

/-- `FindEntities` over a block of lines. -/
def FindEntities (entityLines : List String) : Except ConvError (List Entity) :=
  exMapM parseEntityLine entityLines

/-- `ParseEntities`: the first line declares the four per-dimension
counts; the section is sliced into four contiguous blocks sized by those
counts (the volume block takes every remaining line), each block is
parsed with its layout, and each parsed length is checked against its
declared count. -/
def ParseEntities (entityLines : List String) : Except ConvError Entities :=
  match entityLines with
  | [] => .error .indexError
  | l0 :: _ =>
    match pySplit l0 with
    | [nNodes, nCurves, nSurfaces, nVolumes] =>
      match pyInt nNodes with
      | none => .error .badToken
      | some nN =>
        match pyInt nCurves with
        | none => .error .badToken
        | some nC =>
          match pyInt nSurfaces with
          | none => .error .badToken
          | some nS =>
            match FindNodes (pySlice entityLines 1 (1 + nN)) with
            | .error e => .error e
            | .ok nodes =>
              match FindEntities (pySlice entityLines (1 + nN) (1 + nN + nC)) with
              | .error e => .error e
              | .ok curves =>
                match FindEntities
                    (pySlice entityLines (1 + nN + nC) (1 + nN + nC + nS)) with
                | .error e => .error e
                | .ok surfaces =>
                  match FindEntities
                      (pySlice entityLines (1 + nN + nC + nS)
                        (entityLines.length : Int)) with
                  | .error e => .error e
                  | .ok volumes =>
                    if (nodes.length : Int) ≠ nN then .error .countMismatch
                    else if (curves.length : Int) ≠ nC then .error .countMismatch
                    else if (surfaces.length : Int) ≠ nS then .error .countMismatch
                    else
                      match pyInt nVolumes with
                      | none => .error .badToken
                      | some nV =>
                        if (volumes.length : Int) ≠ nV then .error .countMismatch
                        else .ok ⟨nodes, curves, surfaces, volumes⟩
    | _ => .error .badToken

/-- Pair one tag line with one coordinate line: the three coordinate
tokens are `float`-converted first, then the whole tag line is
`int`-converted. -/
def parseNodePair (p : String × String) : Except ConvError MeshNode :=
  match pySplit p.2 with
  | [x, y, z] =>
    if isPyFloat x && isPyFloat y && isPyFloat z then
      match pyInt p.1 with
      | none => .error .badToken
      | some tag => .ok ⟨tag, x, y, z⟩
    else .error .badToken
  | _ => .error .badToken

/-- The token-count classification of the vertex section body: lines with
exactly one token are tags, lines with exactly three tokens are
coordinate triples, and the i-th tag is paired with the i-th triple
(`zip` truncates to the shorter list, like Python's). -/
def parseNodesPairs (rest : List String) : Except ConvError (List MeshNode) :=
  exMapM parseNodePair
    ((rest.filter fun l => (pySplit l).length = 1).zip
      (rest.filter fun l => (pySplit l).length = 3))

/-- `ParseNodes`: header `numBlocks numVertices minTag maxTag`, the
token-count pairing of the body, then the declared-count check followed
by the first-tag/minTag and last-tag/maxTag checks. -/
def ParseNodes (nodeLines : List String) : Except ConvError (List MeshNode) :=
  match nodeLines with
  | [] => .error .indexError
  | l0 :: rest =>
    match pySplit l0 with
    | [_nb, nNodes, minTag, maxTag] =>
      match parseNodesPairs rest with
      | .error e => .error e
      | .ok nds =>
        match pyInt nNodes with
        | none => .error .badToken
        | some nN =>
          if (nds.length : Int) ≠ nN then .error .countMismatch
          else
            match pyInt minTag with
            | none => .error .badToken
            | some minV =>
              match nds.head? with
              | none => .error .indexError
              | some first =>
                if minV ≠ first.tag then .error .tagRangeMismatch
                else
                  match pyInt maxTag with
                  | none => .error .badToken
                  | some maxV =>
                    match nds.getLast? with
                    | none => .error .indexError
                    | some last =>
                      if maxV ≠ last.tag then .error .tagRangeMismatch
                      else .ok nds
    | _ => .error .badToken

/-- One element line of a block: `elementTag, *nodeTags = map(int, line.split())`
(at least one token, all integers); the element carries the dimension,
owner entity tag and type of its block header. -/
def parseElementLine (elDim elEntityTag elType : Int) (line : String) :
    Except ConvError MeshElement :=
  match exMapM (fun s =>
      match pyInt s with
      | none => Except.error ConvError.badToken
      | some v => Except.ok v) (pySplit line) with
  | .error e => .error e
  | .ok [] => .error .badToken
  | .ok (tag :: nodeTags) => .ok ⟨tag, elDim, elType, nodeTags, elEntityTag⟩

/-- The element-section scan (`while i < len(elementLines) - 1`): a line
without exactly 4 tokens advances the position by one; a 4-token line is
a block header `dim entityTag type numElementsInBlock` whose following
`numElementsInBlock` lines (Python slice semantics) are parsed as
elements, after which the scan resumes past the block.  The source loop
is unbounded (a negative block count makes it loop forever), so the
recursion is paid for with fuel; exhausting it yields `nonTermination`. -/
def parseElementsAux (lines : List String) :
    Nat → Int → List MeshElement → Except ConvError (List MeshElement)
  | 0, _, _ => .error .nonTermination
  | fuel + 1, i, acc =>
    if i < (lines.length : Int) - 1 then
      match pyGet lines i with
      | none => .error .indexError
      | some line =>
        let toks := pySplit line
        if toks.length = 4 then
          match pyInt (toks.getD 0 ""), pyInt (toks.getD 1 ""),
              pyInt (toks.getD 2 ""), pyInt (toks.getD 3 "") with
          | some elDim, some elEntityTag, some elType, some numElBlock =>
            match exMapM (parseElementLine elDim elEntityTag elType)
                (pySlice lines (i + 1) (i + 1 + numElBlock)) with
            | .error e => .error e
            | .ok elems =>
              parseElementsAux lines fuel (i + 1 + numElBlock) (acc ++ elems)
          | _, _, _, _ => .error .badToken
        else parseElementsAux lines fuel (i + 1) acc
    else .ok acc

/-- `ParseElements`: the scan starts at index 1 (skipping the summary
line).  `lines.length + 1` units of fuel cover every terminating run of
the source loop, whose position strictly increases while it terminates. -/
def ParseElements (elementLines : List String) : Except ConvError (List MeshElement) :=
  parseElementsAux elementLines (elementLines.length + 1) 1 []

/-! ## Reference resolution -/

/-- The `(tag, physicalGroups)` view of the entity table selected by an
element's dimension (`nodes`/`curves`/`surfaces`/`volumes` for dimension
0/1/2/3); `none` for any other dimension, for which the source selects no
table. -/
def entPairs (ents : Entities) (d : Int) : Option (List (Int × List Int)) :=
  if d = 0 then some (ents.nodes.map fun e => (e.tag, e.physicalGroups))
  else if d = 1 then some (ents.curves.map fun e => (e.tag, e.physicalGroups))
  else if d = 2 then some (ents.surfaces.map fun e => (e.tag, e.physicalGroups))
  else if d = 3 then some (ents.volumes.map fun e => (e.tag, e.physicalGroups))
  else none

/-- Worker for `MergeEntityAndElements`.  The `lastList` parameter models
the Python loop variable `entityList`, which keeps its previous value
when an element's dimension selects no table (and is unbound on the first
such element: `unboundVariable`).  A missing tag in the selected table is
the `StopIteration` of `next(...)`: `danglingReference`. -/
def mergeAux (ents : Entities) :
    List MeshElement → Option (List (Int × List Int)) →
    Except ConvError (List ResolvedElement)
  | [], _ => .ok []
  | el :: rest, lastList =>
    let cur := match entPairs ents el.dim with
      | some tbl => some tbl
      | none => lastList
    match cur with
    | none => .error .unboundVariable
    | some tbl =>
      match tbl.find? (fun p => p.1 = el.entityTag) with
      | none => .error .danglingReference
      | some p =>
        match mergeAux ents rest (some tbl) with
        | .error e => .error e
        | .ok rest' =>
          .ok (⟨el.tag, el.dim, el.type, el.nodeTags, el.entityTag, p.2⟩ :: rest')

/-- `MergeEntityAndElements`: attach to every element the physical groups
of the first entity with its dimension and owner tag. -/
def MergeEntityAndElements (ents : Entities) (els : List MeshElement) :
    Except ConvError (List ResolvedElement) :=
  mergeAux ents els none

/-! ## Output serialization -/

/-- Point-block body loop: one `x y z` line per vertex, counting them. -/
def pointDataAux : List MeshNode → String → Nat → String × Nat
  | [], s, c => (s, c)
  | n :: rest, s, c =>
    pointDataAux rest (s ++ n.x ++ " " ++ n.y ++ " " ++ n.z ++ "\n") (c + 1)

/-- `WriteVTKPointData`: POINTS header with the vertex count, then the
coordinate lines. -/
def WriteVTKPointData (nds : List MeshNode) : String :=
  let r := pointDataAux nds "" 0
  "POINTS " ++ toString r.2 ++ " double \n" ++ r.1 ++ "\n"

/-- The inner loop of a cell record: append one 0-based index
(`tag - 1`) per vertex tag. -/
def cellRecordTags : List Int → String → String
  | [], s => s
  | t :: ts, s => cellRecordTags ts (s ++ " " ++ toString (t - 1))

/-- One emitted cell record: the vertex count followed by the 0-based
vertex indices. -/
def cellRecordStr (e : ResolvedElement) : String :=
  cellRecordTags e.nodeTags (toString e.nodeTags.length) ++ "\n"

/-- Per-element inner loop of `WriteVTKCellData`: one duplicate record per
resolved physical group, counting cells and vertex indices. -/
def cellDataInner (e : ResolvedElement) :
    List Int → String → Nat → Nat → String × Nat × Nat
  | [], s, c, t => (s, c, t)
  | _ :: gs, s, c, t =>
    cellDataInner e gs (s ++ cellRecordStr e) (c + 1) (t + e.nodeTags.length)

/-- Outer loop of `WriteVTKCellData` over the element list. -/
def cellDataOuter : List ResolvedElement → String → Nat → Nat → String × Nat × Nat
  | [], s, c, t => (s, c, t)
  | e :: rest, s, c, t =>
    let r := cellDataInner e e.physicalGroups s c t
    cellDataOuter rest r.1 r.2.1 r.2.2

/-- `WriteVTKCellData`: CELLS header carrying the duplicated-cell count
and the index-list size (vertex indices plus one count prefix per cell),
then the records. -/
def WriteVTKCellData (els : List ResolvedElement) : String :=
  let r := cellDataOuter els "" 0 0
  "CELLS " ++ toString r.2.1 ++ " " ++ toString (r.2.2 + r.2.1) ++ "\n" ++ r.1 ++ "\n"

/-- The fixed Gmsh-type to VTK-type table (`mshToVtk`); `none` models the
`KeyError` for a type outside the table. -/
def mshToVtk (t : Int) : Option Int :=
  if t = 1 then some 3
  else if t = 2 then some 5
  else if t = 3 then some 9
  else if t = 4 then some 10
  else if t = 5 then some 12
  else if t = 7 then some 14
  else none

/-- Per-element inner loop of `WriteVTKCellTypes`: one VTK type code per
resolved physical group. -/
def cellTypeInner (e : ResolvedElement) :
    List Int → String → Nat → Except ConvError (String × Nat)
  | [], s, c => .ok (s, c)
  | _ :: gs, s, c =>
    match mshToVtk e.type with
    | none => .error .unsupportedElementType
    | some v => cellTypeInner e gs (s ++ toString v ++ "\n") (c + 1)

/-- Outer loop of `WriteVTKCellTypes` over the element list. -/
def cellTypeOuter : List ResolvedElement → String → Nat → Except ConvError (String × Nat)
  | [], s, c => .ok (s, c)
  | e :: rest, s, c =>
    match cellTypeInner e e.physicalGroups s c with
    | .error er => .error er
    | .ok (s', c') => cellTypeOuter rest s' c'

/-- `WriteVTKCellTypes`: CELL_TYPES header with the duplicated-cell count,
then one type code line per emitted cell. -/
def WriteVTKCellTypes (els : List ResolvedElement) : Except ConvError String :=
  match cellTypeOuter els "" 0 with
  | .error e => .error e
  | .ok (s, n) => .ok ("CELL_TYPES " ++ toString n ++ "\n" ++ s ++ "\n")

/-- `nSolutions`: only the `MaterialID` field is recognized; any other
name hits the `DebugStop` (`unsupportedField`). -/
def nSolutions (field : String) : Except ConvError (Nat × String) :=
  if field = "MaterialID" then .ok (1, "SCALARS") else .error .unsupportedField

/-- Group loop of `Solution`: one scalar value (the group tag that caused
the duplicate) per emitted cell. -/
def solutionInner : List Int → String → Nat → String × Nat
  | [], s, c => (s, c)
  | g :: gs, s, c => solutionInner gs (s ++ toString g ++ "\n") (c + 1)

/-- Element loop of `Solution`. -/
def solutionOuter : List ResolvedElement → String → Nat → String × Nat
  | [], s, c => (s, c)
  | e :: rest, s, c =>
    let r := solutionInner e.physicalGroups s c
    solutionOuter rest r.1 r.2

/-- `Solution`: the field data and emitted-cell count for `MaterialID`;
for any other field the source returns the never-assigned `nElements`
(`NameError`, i.e. `unboundVariable`) — unreachable through
`WriteVTKHeader`, which calls `nSolutions` first. -/
def Solution (els : List ResolvedElement) (field : String) :
    Except ConvError (String × Nat) :=
  if field = "MaterialID" then .ok (solutionOuter els "" 0)
  else .error .unboundVariable

/-- Field loop of `WriteVTKHeader`: each iteration overwrites `text`; the
carried `Option String` is the Python local `text`, unbound when the loop
body never ran. -/
def headerLoop (els : List ResolvedElement) :
    List String → Option String → Except ConvError (Option String)
  | [], last => .ok last
  | f :: fs, _ =>
    match nSolutions f with
    | .error e => .error e
    | .ok (fieldSize, fieldType) =>
      match Solution els f with
      | .error e => .error e
      | .ok (fieldData, nElements) =>
        headerLoop els fs (some ("CELL_DATA " ++ toString nElements ++ "\n"
          ++ fieldType ++ " MaterialID int " ++ toString fieldSize ++ "\n"
          ++ "LOOKUP_TABLE default\n" ++ fieldData))

/-- `WriteVTKHeader`: returns the `text` of the last field iteration; with
an empty field list `text` was never assigned (`NameError`). -/
def WriteVTKHeader (els : List ResolvedElement) (fields : List String) :
    Except ConvError String :=
  match headerLoop els fields none with
  | .error e => .error e
  | .ok (some t) => .ok t
  | .ok none => .error .unboundVariable

/-- `WriteVTK`: the whole output text (fixed 4-line preamble, points,
cells, cell types, field header) is assembled in memory; the `.ok`
payload is what the single file write would emit. -/
def WriteVTK (nds : List MeshNode) (els : List ResolvedElement)
    (fields : List String) : Except ConvError String :=
  let pts := WriteVTKPointData nds
  let cells := WriteVTKCellData els
  match WriteVTKCellTypes els with
  | .error e => .error e
  | .ok types =>
    match WriteVTKHeader els fields with
    | .error e => .error e
    | .ok hdr =>
      .ok ("# vtk DataFile Version 2.0\nCreated by Gmsh 4.13.1\nASCII\n"
        ++ "DATASET UNSTRUCTURED_GRID\n" ++ pts ++ cells ++ types ++ hdr)

/-! ## The full pipeline (`Do`) -/

/-- The parsed model of one input file. -/
structure ParsedMesh where
  physicalNames : List PhysName
  ents : Entities
  nodes : List MeshNode
  els : List MeshElement
  deriving DecidableEq, Repr

/-- `lines.index(marker)`: position of the first matching line, or the
`ValueError` for a missing section marker (`formatError`). -/
def findMarker (lines : List String) (m : String) : Except ConvError Nat :=
  match lines.findIdx? (fun l => l = m) with
  | some i => .ok i
  | none => .error .formatError

/-- The section-location and parsing stages of `Do`, in source order. -/
def parseAll (lines : List String) : Except ConvError ParsedMesh :=
  match findMarker lines "$PhysicalNames" with
  | .error e => .error e
  | .ok ps =>
    match findMarker lines "$EndPhysicalNames" with
    | .error e => .error e
    | .ok pe =>
      match findMarker lines "$Entities" with
      | .error e => .error e
      | .ok es =>
        match findMarker lines "$EndEntities" with
        | .error e => .error e
        | .ok ee =>
          match findMarker lines "$Nodes" with
          | .error e => .error e
          | .ok ns =>
            match findMarker lines "$EndNodes" with
            | .error e => .error e
            | .ok ne =>
              match findMarker lines "$Elements" with
              | .error e => .error e
              | .ok es2 =>
                match findMarker lines "$EndElements" with
                | .error e => .error e
                | .ok ee2 =>
                  match ParsePhysicalNames (pySlice lines ((ps : Int) + 1) (pe : Int)) with
                  | .error e => .error e
                  | .ok pn =>
                    match ParseEntities (pySlice lines ((es : Int) + 1) (ee : Int)) with
                    | .error e => .error e
                    | .ok ents =>
                      match ParseNodes (pySlice lines ((ns : Int) + 1) (ne : Int)) with
                      | .error e => .error e
                      | .ok nds =>
                        match ParseElements (pySlice lines ((es2 : Int) + 1) (ee2 : Int)) with
                        | .error e => .error e
                        | .ok elems => .ok ⟨pn, ents, nds, elems⟩

/-- Parsing followed by reference resolution. -/
def resolveStage (lines : List String) :
    Except ConvError (List MeshNode × List ResolvedElement) :=
  match parseAll lines with
  | .error e => .error e
  | .ok pm =>
    match MergeEntityAndElements pm.ents pm.els with
    | .error e => .error e
    | .ok mels => .ok (pm.nodes, mels)

/-- `Do`: the whole conversion.  The `.ok` payload is the content of the
output file, written once at the end; an `.error` run writes nothing. -/
def Do (lines : List String) (fields : List String) : Except ConvError String :=
  match resolveStage lines with
  | .error e => .error e
  | .ok (nds, mels) => WriteVTK nds mels fields

/-! ## Specification-shaped views of the serializer output

These definitions restate, in list form, what the spec says the
serializer emits; the theorems below connect them to the string-building
loops above. -/

/-- Resolution of one element as the spec words it (§4.6): look up the
entity table of the element's dimension, find the entity whose tag equals
the element's owner tag, and copy its physical groups; fail with
`danglingReference` when no such entity exists. -/
def specResolveElement (ents : Entities) (e : MeshElement) :
    Except ConvError ResolvedElement :=
  match ((entPairs ents e.dim).getD []).find? (fun p => p.1 = e.entityTag) with
  | none => .error .danglingReference
  | some p => .ok ⟨e.tag, e.dim, e.type, e.nodeTags, e.entityTag, p.2⟩

/-- The emitted cell records, one per (element, resolved group) pair in
order: an element with k groups contributes k copies of its record. -/
def cellRecords : List ResolvedElement → List String
  | [] => []
  | e :: rest =>
    List.replicate e.physicalGroups.length (cellRecordStr e) ++ cellRecords rest

/-- The emitted field values, the group tags themselves in order. -/
def fieldValues : List ResolvedElement → List String
  | [] => []
  | e :: rest => (e.physicalGroups.map fun g => toString g ++ "\n") ++ fieldValues rest

/-- The emitted cell-type lines, one per (element, resolved group) pair. -/
def typeLines : List ResolvedElement → List String
  | [] => []
  | e :: rest =>
    List.replicate e.physicalGroups.length
      (toString ((mshToVtk e.type).getD 0) ++ "\n") ++ typeLines rest

/-- Total number of emitted (duplicated) cells. -/
def nCellsOf : List ResolvedElement → Nat
  | [] => 0
  | e :: rest => e.physicalGroups.length + nCellsOf rest

/-- Total number of emitted vertex indices (without the per-record count
prefixes). -/
def nIdxOf : List ResolvedElement → Nat
  | [] => 0
  | e :: rest => e.physicalGroups.length * e.nodeTags.length + nIdxOf rest

end TPZVtkGenerator

/-! ## String helper lemmas -/

theorem strData_append (a b : String) : (a ++ b).data = a.data ++ b.data := by
  cases a; cases b; rfl

theorem strAppend_empty (a : String) : a ++ "" = a := by
  cases a with
  | mk d =>
    show String.mk (d ++ []) = String.mk d
    rw [List.append_nil]

theorem strEmpty_append (a : String) : "" ++ a = a := by
  cases a with
  | mk d => rfl

theorem strAppend_assoc (a b c : String) : a ++ b ++ c = a ++ (b ++ c) := by
  cases a; cases b; cases c
  show String.mk _ = String.mk _
  rw [List.append_assoc]

theorem strJoin_append (xs ys : List String) :
    strJoin (xs ++ ys) = strJoin xs ++ strJoin ys := by
  induction xs with
  | nil => rw [List.nil_append, strJoin, strEmpty_append]
  | cons x xs ih => rw [List.cons_append, strJoin, strJoin, ih, strAppend_assoc]

namespace TPZVtkGenerator

/-! ## Characterization of the serializer loops -/

theorem cellRecordTags_eq (ts : List Int) (s : String) :
    cellRecordTags ts s = s ++ strJoin (ts.map fun t => " " ++ toString (t - 1)) := by
  induction ts generalizing s with
  | nil => rw [cellRecordTags, List.map_nil, strJoin, strAppend_empty]
  | cons t ts ih =>
    rw [cellRecordTags, ih, List.map_cons, strJoin]
    simp only [strAppend_assoc]

theorem cellRecordStr_eq (e : ResolvedElement) :
    cellRecordStr e =
      toString e.nodeTags.length
        ++ strJoin (e.nodeTags.map fun t => " " ++ toString (t - 1)) ++ "\n" := by
  rw [cellRecordStr, cellRecordTags_eq]

theorem cellDataInner_eq (e : ResolvedElement) (gs : List Int) (s : String) (c t : Nat) :
    cellDataInner e gs s c t =
      (s ++ strJoin (List.replicate gs.length (cellRecordStr e)),
        c + gs.length, t + gs.length * e.nodeTags.length) := by
  induction gs generalizing s c t with
  | nil => simp [cellDataInner, strJoin, strAppend_empty]
  | cons g gs ih =>
    rw [cellDataInner, ih]
    simp only [List.length_cons, List.replicate_succ, strJoin, Prod.mk.injEq,
      Nat.succ_mul]
    refine ⟨by simp only [strAppend_assoc], by omega, by omega⟩

theorem cellDataOuter_eq (els : List ResolvedElement) (s : String) (c t : Nat) :
    cellDataOuter els s c t =
      (s ++ strJoin (cellRecords els), c + nCellsOf els, t + nIdxOf els) := by
  induction els generalizing s c t with
  | nil => simp [cellDataOuter, cellRecords, nCellsOf, nIdxOf, strJoin, strAppend_empty]
  | cons e els ih =>
    rw [cellDataOuter, cellDataInner_eq, ih]
    simp only [cellRecords, nCellsOf, nIdxOf, strJoin_append, Prod.mk.injEq]
    refine ⟨by rw [strAppend_assoc], by omega, by omega⟩

theorem WriteVTKCellData_eq (els : List ResolvedElement) :
    WriteVTKCellData els =
      "CELLS " ++ toString (nCellsOf els) ++ " "
        ++ toString (nIdxOf els + nCellsOf els) ++ "\n"
        ++ strJoin (cellRecords els) ++ "\n" := by
  rw [WriteVTKCellData, cellDataOuter_eq]
  simp only [Nat.zero_add, strEmpty_append]

theorem cellTypeInner_eq (e : ResolvedElement) (v : Int) (hv : mshToVtk e.type = some v)
    (gs : List Int) (s : String) (c : Nat) :
    cellTypeInner e gs s c =
      .ok (s ++ strJoin (List.replicate gs.length (toString v ++ "\n")), c + gs.length) := by
  induction gs generalizing s c with
  | nil => simp [cellTypeInner, strJoin, strAppend_empty]
  | cons g gs ih =>
    simp only [cellTypeInner, hv, ih]
    simp only [List.length_cons, List.replicate_succ, strJoin, Except.ok.injEq,
      Prod.mk.injEq]
    refine ⟨by simp only [strAppend_assoc], by omega⟩

theorem cellTypeOuter_eq (els : List ResolvedElement)
    (h : ∀ e ∈ els, (mshToVtk e.type).isSome) (s : String) (c : Nat) :
    cellTypeOuter els s c = .ok (s ++ strJoin (typeLines els), c + nCellsOf els) := by
  induction els generalizing s c with
  | nil => simp [cellTypeOuter, typeLines, nCellsOf, strJoin, strAppend_empty]
  | cons e els ih =>
    obtain ⟨v, hv⟩ := Option.isSome_iff_exists.mp (h e (List.mem_cons_self e els))
    simp only [cellTypeOuter, cellTypeInner_eq e v hv,
      ih (fun x hx => h x (List.mem_cons_of_mem e hx))]
    simp only [typeLines, nCellsOf, strJoin_append, hv, Option.getD_some,
      Except.ok.injEq, Prod.mk.injEq]
    refine ⟨by simp only [strAppend_assoc], by omega⟩

theorem WriteVTKCellTypes_eq (els : List ResolvedElement)
    (h : ∀ e ∈ els, (mshToVtk e.type).isSome) :
    WriteVTKCellTypes els =
      .ok ("CELL_TYPES " ++ toString (nCellsOf els) ++ "\n"
        ++ strJoin (typeLines els) ++ "\n") := by
  rw [WriteVTKCellTypes, cellTypeOuter_eq els h]
  simp only [Nat.zero_add, strEmpty_append]

theorem solutionInner_eq (gs : List Int) (s : String) (c : Nat) :
    solutionInner gs s c =
      (s ++ strJoin (gs.map fun g => toString g ++ "\n"), c + gs.length) := by
  induction gs generalizing s c with
  | nil => simp [solutionInner, strJoin, strAppend_empty]
  | cons g gs ih =>
    rw [solutionInner, ih]
    simp only [List.map_cons, List.length_cons, strJoin, Prod.mk.injEq]
    refine ⟨by simp only [strAppend_assoc], by omega⟩

theorem solutionOuter_eq (els : List ResolvedElement) (s : String) (c : Nat) :
    solutionOuter els s c = (s ++ strJoin (fieldValues els), c + nCellsOf els) := by
  induction els generalizing s c with
  | nil => simp [solutionOuter, fieldValues, nCellsOf, strJoin, strAppend_empty]
  | cons e els ih =>
    rw [solutionOuter, solutionInner_eq, ih]
    simp only [fieldValues, nCellsOf, strJoin_append, Prod.mk.injEq]
    refine ⟨by rw [strAppend_assoc], by omega⟩

theorem Solution_eq (els : List ResolvedElement) :
    Solution els "MaterialID" = .ok (strJoin (fieldValues els), nCellsOf els) := by
  rw [Solution, if_pos rfl, solutionOuter_eq]
  simp only [Nat.zero_add, strEmpty_append]

/-! ## Field-header and pipeline lemmas -/

theorem headerLoop_bad (els : List ResolvedElement) (fields : List String)
    (h : ∃ f ∈ fields, f ≠ "MaterialID") (last : Option String) :
    headerLoop els fields last = .error .unsupportedField := by
  induction fields generalizing last with
  | nil => simp at h
  | cons f fs ih =>
    by_cases hf : f = "MaterialID"
    · subst hf
      rcases h with ⟨g, hg, hgne⟩
      rcases List.mem_cons.mp hg with hh | hh
      · exact absurd hh hgne
      · simp only [headerLoop, nSolutions, if_pos rfl, Solution]
        exact ih ⟨g, hh, hgne⟩ _
    · simp only [headerLoop, nSolutions, if_neg hf]

theorem WriteVTKHeader_bad (els : List ResolvedElement) (fields : List String)
    (h : ∃ f ∈ fields, f ≠ "MaterialID") :
    WriteVTKHeader els fields = .error .unsupportedField := by
  rw [WriteVTKHeader, headerLoop_bad els fields h]

theorem WriteVTKHeader_nil (els : List ResolvedElement) :
    WriteVTKHeader els [] = .error .unboundVariable := rfl

theorem WriteVTK_nil_not_ok (nds : List MeshNode) (els : List ResolvedElement) :
    (WriteVTK nds els []).isOk = false := by
  rw [WriteVTK]
  cases WriteVTKCellTypes els with
  | error e => rfl
  | ok types => rw [WriteVTKHeader_nil]; rfl

theorem Do_nil_not_ok (lines : List String) : (Do lines []).isOk = false := by
  rw [Do]
  cases resolveStage lines with
  | error e => rfl
  | ok p => exact WriteVTK_nil_not_ok p.1 p.2

/-! ## Merge lemmas -/

theorem mergeAux_eq (ents : Entities) (els : List MeshElement)
    (h : ∀ e ∈ els, (entPairs ents e.dim).isSome) (last : Option (List (Int × List Int))) :
    mergeAux ents els last = exMapM (specResolveElement ents) els := by
  induction els generalizing last with
  | nil => rfl
  | cons el els ih =>
    obtain ⟨tbl, htbl⟩ :=
      Option.isSome_iff_exists.mp (h el (List.mem_cons_self el els))
    simp only [mergeAux, htbl, exMapM, specResolveElement, Option.getD_some]
    cases tbl.find? (fun p => p.1 = el.entityTag) with
    | none => rfl
    | some p =>
      rw [ih (fun x hx => h x (List.mem_cons_of_mem el hx))]
      cases exMapM (specResolveElement ents) els with
      | error e => rfl
      | ok rest => rfl

theorem Merge_eq (ents : Entities) (els : List MeshElement)
    (h : ∀ e ∈ els, (entPairs ents e.dim).isSome) :
    MergeEntityAndElements ents els = exMapM (specResolveElement ents) els :=
  mergeAux_eq ents els h none

theorem Merge_dangling (ents : Entities) (els : List MeshElement)
    (h : ∀ e ∈ els, (entPairs ents e.dim).isSome)
    (hd : ∃ e ∈ els, specResolveElement ents e = .error .danglingReference) :
    MergeEntityAndElements ents els = .error .danglingReference := by
  rw [Merge_eq ents els h]
  induction els with
  | nil => simp at hd
  | cons el els ih =>
    rcases hd with ⟨e, he, hee⟩
    rcases List.mem_cons.mp he with rfl | hmem
    · rw [exMapM, hee]
    · rw [exMapM]
      cases hel : specResolveElement ents el with
      | error er =>
        have := h el (List.mem_cons_self el els)
        rw [specResolveElement] at hel
        cases hfind : ((entPairs ents el.dim).getD []).find?
            (fun p => p.1 = el.entityTag) with
        | none => rw [hfind] at hel; exact (Except.error.injEq _ _).mpr (by
            injection hel with h1; exact h1.symm ▸ rfl)
        | some p => rw [hfind] at hel; exact absurd hel (by simp)
      | ok b =>
        rw [ih (fun x hx => h x (List.mem_cons_of_mem el hx)) ⟨e, hmem, hee⟩]

theorem Do_dangling (lines : List String) (fields : List String)
    (h : resolveStage lines = .error .danglingReference) :
    Do lines fields = .error .danglingReference := by
  rw [Do, h]

/-! ## Element-scan lemmas -/

theorem exMapM_error {α β : Type} (f : α → Except ConvError β) (l : List α)
    (er : ConvError) (h : exMapM f l = .error er) : ∃ a ∈ l, f a = .error er := by
  induction l with
  | nil => simp [exMapM] at h
  | cons a as ih =>
    rw [exMapM] at h
    cases hfa : f a with
    | error e =>
      rw [hfa] at h
      injection h with h1
      exact ⟨a, List.mem_cons_self a as, h1 ▸ hfa⟩
    | ok b =>
      rw [hfa] at h
      cases hrest : exMapM f as with
      | error e =>
        rw [hrest] at h
        injection h with h1
        obtain ⟨x, hx, hfx⟩ := ih (h1 ▸ hrest)
        exact ⟨x, List.mem_cons_of_mem a hx, hfx⟩
      | ok bs => rw [hrest] at h; exact absurd h (by simp)

theorem parseElementLine_error (d e t : Int) (line : String) (er : ConvError)
    (h : parseElementLine d e t line = .error er) : er = .badToken := by
  rw [parseElementLine] at h
  cases hm : exMapM (fun s =>
      match pyInt s with
      | none => Except.error ConvError.badToken
      | some v => Except.ok v) (pySplit line) with
  | error e2 =>
    rw [hm] at h
    obtain ⟨a, _, hfa⟩ := exMapM_error _ _ _ hm
    cases hp : pyInt a with
    | none =>
      rw [hp] at hfa
      injection hfa with h2
      injection h with h3
      rw [← h3, ← h2]
    | some v => rw [hp] at hfa; exact absurd hfa (by simp)
  | ok vals =>
    rw [hm] at h
    cases vals with
    | nil => injection h with h1; exact h1.symm
    | cons tag rest => exact absurd h (by simp)

theorem parseElementLine_ok (d e t : Int) (line : String) (el : MeshElement)
    (h : parseElementLine d e t line = .ok el) :
    el.dim = d ∧ el.entityTag = e ∧ el.type = t := by
  rw [parseElementLine] at h
  cases hm : exMapM (fun s =>
      match pyInt s with
      | none => Except.error ConvError.badToken
      | some v => Except.ok v) (pySplit line) with
  | error e2 => rw [hm] at h; exact absurd h (by simp)
  | ok vals =>
    rw [hm] at h
    cases vals with
    | nil => exact absurd h (by simp)
    | cons tag rest =>
      injection h with h1
      rw [← h1]
      exact ⟨rfl, rfl, rfl⟩

theorem parseElementsAux_no_countMismatch (lines : List String) (fuel : Nat)
    (i : Int) (acc : List MeshElement) :
    parseElementsAux lines fuel i acc ≠ .error .countMismatch := by
  induction fuel generalizing i acc with
  | zero => simp [parseElementsAux]
  | succ fuel ih =>
    rw [parseElementsAux]
    by_cases hi : i < (lines.length : Int) - 1
    · rw [if_pos hi]
      cases hget : pyGet lines i with
      | none => simp
      | some line =>
        simp only []
        by_cases h4 : (pySplit line).length = 4
        · rw [if_pos h4]
          cases hp0 : pyInt ((pySplit line).getD 0 "") with
          | none => simp
          | some dv =>
            cases hp1 : pyInt ((pySplit line).getD 1 "") with
            | none => simp
            | some ev =>
              cases hp2 : pyInt ((pySplit line).getD 2 "") with
              | none => simp
              | some tv =>
                cases hp3 : pyInt ((pySplit line).getD 3 "") with
                | none => simp
                | some nv =>
                  simp only []
                  cases hm : exMapM (parseElementLine dv ev tv)
                      (pySlice lines (i + 1) (i + 1 + nv)) with
                  | error e =>
                    obtain ⟨a, _, hfa⟩ := exMapM_error _ _ _ hm
                    have : e = .badToken := parseElementLine_error _ _ _ _ _ hfa
                    subst this
                    simp
                  | ok elems => exact ih _ _
        · rw [if_neg h4]
          exact ih _ _
    · rw [if_neg hi]
      simp

theorem parseElementsAux_skip (lines : List String) (fuel : Nat) (i : Int)
    (acc : List MeshElement) (line : String)
    (hi : i < (lines.length : Int) - 1) (hget : pyGet lines i = some line)
    (h4 : (pySplit line).length ≠ 4) :
    parseElementsAux lines (fuel + 1) i acc = parseElementsAux lines fuel (i + 1) acc := by
  rw [parseElementsAux, if_pos hi]
  simp only [hget]
  rw [if_neg h4]

theorem parseElementsAux_header (lines : List String) (fuel : Nat) (i : Int)
    (acc : List MeshElement) (line : String) (a b c d : String) (dv ev tv nv : Int)
    (hi : i < (lines.length : Int) - 1) (hget : pyGet lines i = some line)
    (hsp : pySplit line = [a, b, c, d])
    (ha : pyInt a = some dv) (hb : pyInt b = some ev)
    (hc : pyInt c = some tv) (hd : pyInt d = some nv) :
    parseElementsAux lines (fuel + 1) i acc =
      match exMapM (parseElementLine dv ev tv) (pySlice lines (i + 1) (i + 1 + nv)) with
      | .error e => .error e
      | .ok elems => parseElementsAux lines fuel (i + 1 + nv) (acc ++ elems) := by
  rw [parseElementsAux, if_pos hi]
  simp only [hget, hsp, List.length_cons, List.length_nil, List.getD_cons_zero,
    List.getD_cons_succ, ha, hb, hc, hd, if_pos]

theorem pySlice_length_of_bounds {α : Type} (xs : List α) (aa bb : Int)
    (h0 : 0 ≤ aa) (hab : aa ≤ bb) (hb : bb ≤ (xs.length : Int)) :
    ((pySlice xs aa bb).length : Int) = bb - aa := by
  simp only [pySlice]
  rw [if_neg (by omega), if_neg (by omega)]
  simp only [List.length_drop, List.length_take]
  omega

/-! ## Parser-success and count-check lemmas -/

theorem ParsePhysicalNames_ok_count (l0 : String) (rest : List String)
    (recs : List PhysName) (h : ParsePhysicalNames (l0 :: rest) = .ok recs) :
    pyInt l0 = some (recs.length : Int) := by
  rw [ParsePhysicalNames] at h
  cases hp : pyInt l0 with
  | none => simp only [hp] at h; exact absurd h (by simp)
  | some n =>
    simp only [hp] at h
    cases hm : exMapM parsePhysLine rest with
    | error e => simp only [hm] at h; exact absurd h (by simp)
    | ok recs2 =>
      simp only [hm] at h
      by_cases hne : (recs2.length : Int) ≠ n
      · rw [if_pos hne] at h; exact absurd h (by simp)
      · rw [if_neg hne] at h
        injection h with h1
        subst h1
        push_neg at hne
        rw [hne]

theorem ParsePhysicalNames_countMismatch (l0 : String) (rest : List String)
    (n : Int) (recs : List PhysName)
    (h1 : pyInt l0 = some n) (h2 : exMapM parsePhysLine rest = .ok recs)
    (h3 : n ≠ (recs.length : Int)) :
    ParsePhysicalNames (l0 :: rest) = .error .countMismatch := by
  simp only [ParsePhysicalNames, h1, h2]
  rw [if_pos (Ne.symm h3)]

theorem ParseEntities_ok_counts (lines : List String) (es : Entities)
    (h : ParseEntities lines = .ok es) :
    ∃ l0 rest a b c d nN nC nS nV, lines = l0 :: rest ∧
      pySplit l0 = [a, b, c, d] ∧
      pyInt a = some nN ∧ pyInt b = some nC ∧
      pyInt c = some nS ∧ pyInt d = some nV ∧
      (es.nodes.length : Int) = nN ∧ (es.curves.length : Int) = nC ∧
      (es.surfaces.length : Int) = nS ∧ (es.volumes.length : Int) = nV := by
  cases lines with
  | nil => rw [ParseEntities] at h; exact absurd h (by simp)
  | cons l0 rest =>
    rw [ParseEntities] at h
    split at h
    case h_2 => exact absurd h (by simp)
    case h_1 a b c d hsp =>
      cases hN : pyInt a with
      | none => simp only [hN] at h; exact absurd h (by simp)
      | some nN =>
        simp only [hN] at h
        cases hC : pyInt b with
        | none => simp only [hC] at h; exact absurd h (by simp)
        | some nC =>
          simp only [hC] at h
          cases hS : pyInt c with
          | none => simp only [hS] at h; exact absurd h (by simp)
          | some nS =>
            simp only [hS] at h
            cases hFN : FindNodes (pySlice (l0 :: rest) 1 (1 + nN)) with
            | error e => simp only [hFN] at h; exact absurd h (by simp)
            | ok nodes =>
              simp only [hFN] at h
              cases hFC : FindEntities
                  (pySlice (l0 :: rest) (1 + nN) (1 + nN + nC)) with
              | error e => simp only [hFC] at h; exact absurd h (by simp)
              | ok curves =>
                simp only [hFC] at h
                cases hFS : FindEntities
                    (pySlice (l0 :: rest) (1 + nN + nC) (1 + nN + nC + nS)) with
                | error e => simp only [hFS] at h; exact absurd h (by simp)
                | ok surfaces =>
                  simp only [hFS] at h
                  cases hFV : FindEntities
                      (pySlice (l0 :: rest) (1 + nN + nC + nS)
                        ((l0 :: rest).length : Int)) with
                  | error e => simp only [hFV] at h; exact absurd h (by simp)
                  | ok volumes =>
                    simp only [hFV] at h
                    by_cases e1 : (nodes.length : Int) ≠ nN
                    · rw [if_pos e1] at h; exact absurd h (by simp)
                    · rw [if_neg e1] at h
                      by_cases e2 : (curves.length : Int) ≠ nC
                      · rw [if_pos e2] at h; exact absurd h (by simp)
                      · rw [if_neg e2] at h
                        by_cases e3 : (surfaces.length : Int) ≠ nS
                        · rw [if_pos e3] at h; exact absurd h (by simp)
                        · rw [if_neg e3] at h
                          cases hV : pyInt d with
                          | none => simp only [hV] at h; exact absurd h (by simp)
                          | some nV =>
                            simp only [hV] at h
                            by_cases e4 : (volumes.length : Int) ≠ nV
                            · rw [if_pos e4] at h; exact absurd h (by simp)
                            · rw [if_neg e4] at h
                              injection h with h1
                              push_neg at e1 e2 e3 e4
                              refine ⟨l0, rest, a, b, c, d, nN, nC, nS, nV, rfl,
                                hsp, hN, hC, hS, hV, ?_, ?_, ?_, ?_⟩ <;>
                                rw [← h1] <;> assumption

theorem ParseNodes_ok_shape (lines : List String) (nds : List MeshNode)
    (h : ParseNodes lines = .ok nds) :
    ∃ l0 rest nb nN minT maxT n minV maxV f l,
      lines = l0 :: rest ∧ pySplit l0 = [nb, nN, minT, maxT] ∧
      parseNodesPairs rest = .ok nds ∧
      pyInt nN = some n ∧ (nds.length : Int) = n ∧
      pyInt minT = some minV ∧ nds.head? = some f ∧ f.tag = minV ∧
      pyInt maxT = some maxV ∧ nds.getLast? = some l ∧ l.tag = maxV := by
  cases lines with
  | nil => rw [ParseNodes] at h; exact absurd h (by simp)
  | cons l0 rest =>
    rw [ParseNodes] at h
    split at h
    case h_2 => exact absurd h (by simp)
    case h_1 nb nN minT maxT hsp =>
      cases hp : parseNodesPairs rest with
      | error e => simp only [hp] at h; exact absurd h (by simp)
      | ok nds2 =>
        simp only [hp] at h
        cases hn : pyInt nN with
        | none => simp only [hn] at h; exact absurd h (by simp)
        | some n =>
          simp only [hn] at h
          by_cases e1 : (nds2.length : Int) ≠ n
          · rw [if_pos e1] at h; exact absurd h (by simp)
          · rw [if_neg e1] at h
            cases hmin : pyInt minT with
            | none => simp only [hmin] at h; exact absurd h (by simp)
            | some minV =>
              simp only [hmin] at h
              cases hf : nds2.head? with
              | none => simp only [hf] at h; exact absurd h (by simp)
              | some f =>
                simp only [hf] at h
                by_cases e2 : minV ≠ f.tag
                · rw [if_pos e2] at h; exact absurd h (by simp)
                · rw [if_neg e2] at h
                  cases hmax : pyInt maxT with
                  | none => simp only [hmax] at h; exact absurd h (by simp)
                  | some maxV =>
                    simp only [hmax] at h
                    cases hl : nds2.getLast? with
                    | none => simp only [hl] at h; exact absurd h (by simp)
                    | some l =>
                      simp only [hl] at h
                      by_cases e3 : maxV ≠ l.tag
                      · rw [if_pos e3] at h; exact absurd h (by simp)
                      · rw [if_neg e3] at h
                        injection h with h1
                        subst h1
                        push_neg at e1 e2 e3
                        exact ⟨l0, rest, nb, nN, minT, maxT, n, minV, maxV, f, l,
                          rfl, hsp, hp, hn, e1, hmin, hf, e2.symm, hmax, hl, e3.symm⟩

theorem ParseNodes_countMismatch (l0 : String) (rest : List String)
    (nb nN minT maxT : String) (nds : List MeshNode) (n : Int)
    (hsp : pySplit l0 = [nb, nN, minT, maxT])
    (hp : parseNodesPairs rest = .ok nds)
    (hn : pyInt nN = some n) (hne : n ≠ (nds.length : Int)) :
    ParseNodes (l0 :: rest) = .error .countMismatch := by
  simp only [ParseNodes, hsp, hp, hn]
  rw [if_pos (Ne.symm hne)]

theorem ParseNodes_tagRange (l0 : String) (rest : List String)
    (nb nN minT maxT : String) (nds : List MeshNode) (minV maxV : Int)
    (f l : MeshNode)
    (hsp : pySplit l0 = [nb, nN, minT, maxT])
    (hp : parseNodesPairs rest = .ok nds)
    (hn : pyInt nN = some (nds.length : Int))
    (hmin : pyInt minT = some minV) (hf : nds.head? = some f) (hfm : minV = f.tag)
    (hmax : pyInt maxT = some maxV) (hl : nds.getLast? = some l)
    (hne : maxV ≠ l.tag) :
    ParseNodes (l0 :: rest) = .error .tagRangeMismatch := by
  simp only [ParseNodes, hsp, hp, hn, hmin, hf, hmax, hl]
  rw [if_neg (by simp), if_neg (by simp [hfm]), if_pos hne]

/-! ## Concrete inputs used by the claim theorems -/

/-- The minimal mesh of spec section 8: one point entity (tag 1, group
[10]), one surface entity (tag 1, group [20], bounded by that point), two
vertices at (0,0,0) and (1,0,0), and one 2-node line element (tag 1,
type 1) owned by the surface (so its block header carries dimension 2 and
owner tag 1). -/
def c8Lines : List String :=
  ["$PhysicalNames", "2", "0 10 pointgroup", "2 20 surfacegroup",
   "$EndPhysicalNames",
   "$Entities", "1 0 1 0", "1 0 0 0 1 10", "1 0 0 0 1 1 1 1 20 1 1",
   "$EndEntities",
   "$Nodes", "1 2 1 2", "2 1 0 2", "1", "2", "0 0 0", "1 0 0", "$EndNodes",
   "$Elements", "1 1 1 1", "2 1 1 1", "1 1 2", "$EndElements"]

/-- The same mesh with the element's owner entity tag changed to 5, which
no surface entity carries: the resolver must hit a dangling reference. -/
def c5Lines : List String :=
  ["$PhysicalNames", "2", "0 10 pointgroup", "2 20 surfacegroup",
   "$EndPhysicalNames",
   "$Entities", "1 0 1 0", "1 0 0 0 1 10", "1 0 0 0 1 1 1 1 20 1 1",
   "$EndEntities",
   "$Nodes", "1 2 1 2", "2 1 0 2", "1", "2", "0 0 0", "1 0 0", "$EndNodes",
   "$Elements", "1 1 1 1", "2 5 1 1", "1 1 2", "$EndElements"]

/-- Entity tables with a single surface entity (tag 1, groups [20]). -/
def c5Ents : Entities := ⟨[], [], [⟨1, 1, [20], 1, [1]⟩], []⟩

/-- One surface-owned element whose owner tag 5 matches no entity. -/
def c5Els : List MeshElement := [⟨1, 2, 1, [1, 2], 5⟩]

/-! ## Claim theorems -/

/-- Claim C1: for every element whose resolved physical-group sequence is
[g1, ..., gk], the serializer emits exactly k cell records with identical
connectivity (`cellRecords` replicates the element's one record once per
group) and exactly k cell-type entries (`typeLines` likewise), and the
scalar field block emits the values g1, ..., gk themselves in that order
(`fieldValues` maps each group tag to its own line); an element with zero
resolved groups contributes no cell record, no cell-type entry and no
field value. -/
theorem c1_duplication_law (els : List ResolvedElement)
    (hsup : ∀ e ∈ els, (mshToVtk e.type).isSome) :
    WriteVTKCellData els =
      "CELLS " ++ toString (nCellsOf els) ++ " "
        ++ toString (nIdxOf els + nCellsOf els) ++ "\n"
        ++ strJoin (cellRecords els) ++ "\n"
    ∧ WriteVTKCellTypes els =
        .ok ("CELL_TYPES " ++ toString (nCellsOf els) ++ "\n"
          ++ strJoin (typeLines els) ++ "\n")
    ∧ Solution els "MaterialID" = .ok (strJoin (fieldValues els), nCellsOf els)
    ∧ ∀ e : ResolvedElement, e.physicalGroups = [] →
        cellRecords [e] = [] ∧ typeLines [e] = [] ∧ fieldValues [e] = [] :=
  ⟨WriteVTKCellData_eq els, WriteVTKCellTypes_eq els hsup, Solution_eq els,
    fun e he => by simp [cellRecords, typeLines, fieldValues, he]⟩

/-- Witness for C1 at a concrete one-element list with two groups. -/
theorem c1_duplication_law_witness :
    Solution [⟨1, 2, 1, [1, 2], 1, [20, 30]⟩] "MaterialID" =
      .ok (strJoin (fieldValues [⟨1, 2, 1, [1, 2], 1, [20, 30]⟩]),
        nCellsOf [⟨1, 2, 1, [1, 2], 1, [20, 30]⟩])
    ∧ WriteVTKCellTypes [⟨1, 2, 1, [1, 2], 1, [20, 30]⟩] =
        .ok ("CELL_TYPES " ++ toString (nCellsOf [⟨1, 2, 1, [1, 2], 1, [20, 30]⟩])
          ++ "\n" ++ strJoin (typeLines [⟨1, 2, 1, [1, 2], 1, [20, 30]⟩]) ++ "\n") :=
  ⟨(c1_duplication_law [⟨1, 2, 1, [1, 2], 1, [20, 30]⟩] (by decide)).2.2.1,
   (c1_duplication_law [⟨1, 2, 1, [1, 2], 1, [20, 30]⟩] (by decide)).2.1⟩

/-- Claim C2: each cell record begins with its vertex count and contains,
for every vertex with external tag t, the 0-based index t - 1; the CELLS
header carries the total duplicated-cell count and the total index-list
size, namely the sum of per-cell vertex counts plus one count prefix per
emitted cell. -/
theorem c2_cell_record_format (els : List ResolvedElement) (e : ResolvedElement) :
    cellRecordStr e =
      toString e.nodeTags.length
        ++ strJoin (e.nodeTags.map fun t => " " ++ toString (t - 1)) ++ "\n"
    ∧ WriteVTKCellData els =
        "CELLS " ++ toString (nCellsOf els) ++ " "
          ++ toString (nIdxOf els + nCellsOf els) ++ "\n"
          ++ strJoin (cellRecords els) ++ "\n" :=
  ⟨cellRecordStr_eq e, WriteVTKCellData_eq els⟩

/-- Counterexample to C3 as stated: on the entities section
`["0 0 0 0", "1 0 0 0 1 10"]` the declared point count (0) is one less
than the actual record count (1), but the run fails with an index error
(the stray line lands in the volume slice, whose layout reads token 7),
not with a count mismatch. -/
theorem c3_count_checks_cex :
    ParseEntities ["0 0 0 0", "1 0 0 0 1 10"] = .error .indexError
    ∧ ConvError.indexError ≠ ConvError.countMismatch :=
  ⟨rfl, by decide⟩

/-- Claim C3 (amended): for physical names, vertices, and each entity
dimension, parsing succeeds only if the parsed record count equals the
declared count; a declared count that differs from the parsed record
count makes the physical-name and vertex parsers fail with CountMismatch
(given parseable record lines), while the entities section may instead
fail with a record-format error when its mis-sized slices push lines into
the wrong layout. -/
theorem c3_count_checks :
    (∀ l0 rest recs, ParsePhysicalNames (l0 :: rest) = .ok recs →
      pyInt l0 = some (recs.length : Int))
    ∧ (∀ lines es, ParseEntities lines = .ok es →
        ∃ l0 rest a b c d nN nC nS nV, lines = l0 :: rest ∧
          pySplit l0 = [a, b, c, d] ∧
          pyInt a = some nN ∧ pyInt b = some nC ∧
          pyInt c = some nS ∧ pyInt d = some nV ∧
          (es.nodes.length : Int) = nN ∧ (es.curves.length : Int) = nC ∧
          (es.surfaces.length : Int) = nS ∧ (es.volumes.length : Int) = nV)
    ∧ (∀ lines nds, ParseNodes lines = .ok nds →
        ∃ l0 rest nb nN minT maxT n, lines = l0 :: rest ∧
          pySplit l0 = [nb, nN, minT, maxT] ∧
          pyInt nN = some n ∧ (nds.length : Int) = n)
    ∧ (∀ l0 rest n recs, pyInt l0 = some n →
        exMapM parsePhysLine rest = .ok recs → n ≠ (recs.length : Int) →
        ParsePhysicalNames (l0 :: rest) = .error .countMismatch)
    ∧ (∀ l0 rest nb nN minT maxT nds n, pySplit l0 = [nb, nN, minT, maxT] →
        parseNodesPairs rest = .ok nds → pyInt nN = some n →
        n ≠ (nds.length : Int) →
        ParseNodes (l0 :: rest) = .error .countMismatch) := by
  refine ⟨ParsePhysicalNames_ok_count, ParseEntities_ok_counts, ?_,
    ParsePhysicalNames_countMismatch, ParseNodes_countMismatch⟩
  intro lines nds h
  obtain ⟨l0, rest, nb, nN, minT, maxT, n, _, _, _, _, h1, h2, _, h4, h5, _⟩ :=
    ParseNodes_ok_shape lines nds h
  exact ⟨l0, rest, nb, nN, minT, maxT, n, h1, h2, h4, h5⟩

/-- Witness for C3 at concrete inputs: a successful physical-name parse
(declared 1, parsed 1), a successful entity parse, a successful vertex
parse, and the CountMismatch raised by an off-by-one declared count for
physical names (declared 2, one record) and vertices (declared 3, two). -/
theorem c3_count_checks_witness :
    pyInt "1" = some (([⟨0, 10, "inlet"⟩] : List PhysName).length : Int)
    ∧ (∃ l0 rest a b c d nN nC nS nV,
        (["1 0 0 0", "1 0 0 0 1 10"] : List String) = l0 :: rest ∧
        pySplit l0 = [a, b, c, d] ∧
        pyInt a = some nN ∧ pyInt b = some nC ∧
        pyInt c = some nS ∧ pyInt d = some nV ∧
        ((Entities.mk [⟨1, "0", "0", "0", 1, [10]⟩] [] [] []).nodes.length : Int) = nN ∧
        ((Entities.mk [⟨1, "0", "0", "0", 1, [10]⟩] [] [] []).curves.length : Int) = nC ∧
        ((Entities.mk [⟨1, "0", "0", "0", 1, [10]⟩] [] [] []).surfaces.length : Int) = nS ∧
        ((Entities.mk [⟨1, "0", "0", "0", 1, [10]⟩] [] [] []).volumes.length : Int) = nV)
    ∧ ParsePhysicalNames ["2", "0 10 inlet"] = .error .countMismatch
    ∧ ParseNodes ["1 3 1 2", "1", "2", "0 0 0", "1 0 0"] = .error .countMismatch :=
  ⟨c3_count_checks.1 "1" ["0 10 inlet"] [⟨0, 10, "inlet"⟩] rfl,
   c3_count_checks.2.1 ["1 0 0 0", "1 0 0 0 1 10"]
     (Entities.mk [⟨1, "0", "0", "0", 1, [10]⟩] [] [] []) rfl,
   c3_count_checks.2.2.2.1 "2" ["0 10 inlet"] 2 [⟨0, 10, "inlet"⟩]
     rfl rfl (by decide),
   c3_count_checks.2.2.2.2 "1 3 1 2" ["1", "2", "0 0 0", "1 0 0"]
     "1" "3" "1" "2" [⟨1, "0", "0", "0"⟩, ⟨2, "1", "0", "0"⟩] 3
     rfl rfl rfl (by decide)⟩

/-- Counterexample to C4 as stated: the input declares minTag 2 and
maxTag 1 while the parsed tags are [2, 1]; the parser accepts it because
it compares only the first parsed tag (2) with minTag and the last parsed
tag (1) with maxTag, although the actual extremes of the set are
min = 1 ≠ 2 and max = 2 ≠ 1, and no TagRangeMismatch is raised despite
the declared maxTag differing from the actual maximum. -/
theorem c4_tag_extremes_cex :
    ParseNodes ["1 2 2 1", "2", "1", "0 0 0", "1 0 0"] =
      .ok [⟨2, "0", "0", "0"⟩, ⟨1, "1", "0", "0"⟩]
    ∧ min (2 : Int) 1 ≠ 2 ∧ max (2 : Int) 1 ≠ 1 :=
  ⟨rfl, by decide, by decide⟩

/-- Claim C4 (amended): the vertex parser checks the first parsed tag
against the declared minTag and the last parsed tag against the declared
maxTag (these are the actual extremes only when the tags are parsed in
ascending order); an accepted vertex set satisfies exactly those two
equalities, and an input whose declared maxTag differs from the last
parsed tag raises TagRangeMismatch. -/
theorem c4_first_last_tag_checks :
    (∀ lines nds, ParseNodes lines = .ok nds →
      ∃ l0 rest nb nN minT maxT n minV maxV f l,
        lines = l0 :: rest ∧ pySplit l0 = [nb, nN, minT, maxT] ∧
        parseNodesPairs rest = .ok nds ∧
        pyInt nN = some n ∧ (nds.length : Int) = n ∧
        pyInt minT = some minV ∧ nds.head? = some f ∧ f.tag = minV ∧
        pyInt maxT = some maxV ∧ nds.getLast? = some l ∧ l.tag = maxV)
    ∧ (∀ l0 rest nb nN minT maxT nds minV maxV f l,
        pySplit l0 = [nb, nN, minT, maxT] →
        parseNodesPairs rest = .ok nds →
        pyInt nN = some (nds.length : Int) →
        pyInt minT = some minV → nds.head? = some f → minV = f.tag →
        pyInt maxT = some maxV → nds.getLast? = some l → maxV ≠ l.tag →
        ParseNodes (l0 :: rest) = .error .tagRangeMismatch) :=
  ⟨ParseNodes_ok_shape, ParseNodes_tagRange⟩

/-- Witness for C4: a successful parse (tags [1, 2], declared range 1..2)
and the TagRangeMismatch raised when the declared maxTag is 5 while the
last parsed tag is 2. -/
theorem c4_first_last_tag_checks_witness :
    (∃ l0 rest nb nN minT maxT n minV maxV f l,
      (["1 2 1 2", "1", "2", "0 0 0", "1 0 0"] : List String) = l0 :: rest ∧
      pySplit l0 = [nb, nN, minT, maxT] ∧
      parseNodesPairs rest = .ok [⟨1, "0", "0", "0"⟩, ⟨2, "1", "0", "0"⟩] ∧
      pyInt nN = some n ∧
      (([⟨1, "0", "0", "0"⟩, ⟨2, "1", "0", "0"⟩] : List MeshNode).length : Int) = n ∧
      pyInt minT = some minV ∧
      ([⟨1, "0", "0", "0"⟩, ⟨2, "1", "0", "0"⟩] : List MeshNode).head? = some f ∧
      f.tag = minV ∧
      pyInt maxT = some maxV ∧
      ([⟨1, "0", "0", "0"⟩, ⟨2, "1", "0", "0"⟩] : List MeshNode).getLast? = some l ∧
      l.tag = maxV)
    ∧ ParseNodes ["1 2 1 5", "1", "2", "0 0 0", "1 0 0"] =
        .error .tagRangeMismatch :=
  ⟨c4_first_last_tag_checks.1 ["1 2 1 2", "1", "2", "0 0 0", "1 0 0"]
     [⟨1, "0", "0", "0"⟩, ⟨2, "1", "0", "0"⟩] rfl,
   c4_first_last_tag_checks.2 "1 2 1 5" ["1", "2", "0 0 0", "1 0 0"]
     "1" "2" "1" "5" [⟨1, "0", "0", "0"⟩, ⟨2, "1", "0", "0"⟩] 1 5
     ⟨1, "0", "0", "0"⟩ ⟨2, "1", "0", "0"⟩
     rfl rfl rfl rfl rfl rfl rfl rfl (by decide)⟩

/-- Claim C5: when every element's dimension selects an entity table, the
resolver behaves exactly as the per-element lookup `specResolveElement`:
it finds the entity of the same dimension whose tag equals the element's
owner tag and copies its physical groups, and fails with
DanglingReference when no such entity exists; and a dangling resolution
aborts `Do` with DanglingReference, so no output is produced (the output
exists only as the `.ok` payload of `Do`). -/
theorem c5_dangling_reference (ents : Entities) (els : List MeshElement)
    (h : ∀ e ∈ els, (entPairs ents e.dim).isSome) :
    MergeEntityAndElements ents els = exMapM (specResolveElement ents) els
    ∧ ∀ lines fields, resolveStage lines = .error .danglingReference →
        Do lines fields = .error .danglingReference :=
  ⟨Merge_eq ents els h, fun lines fields hh => Do_dangling lines fields hh⟩

/-- Witness for C5: the one-surface entity table with an element whose
owner tag 5 matches nothing, and the concrete mesh `c5Lines` whose whole
conversion aborts with DanglingReference. -/
theorem c5_dangling_reference_witness :
    MergeEntityAndElements c5Ents c5Els = exMapM (specResolveElement c5Ents) c5Els
    ∧ Do c5Lines ["MaterialID"] = .error .danglingReference :=
  ⟨(c5_dangling_reference c5Ents c5Els (by decide)).1,
   (c5_dangling_reference c5Ents c5Els (by decide)).2 c5Lines ["MaterialID"] rfl⟩

/-- Claim C6: requesting any field name other than MaterialID aborts the
conversion with UnsupportedField; since the whole output text is the
`.ok` payload of `Do` (the source buffers the full text and performs a
single write after all stages succeed), the failed run produces no
output.  The hypothesis that the same mesh converts successfully with
the supported field isolates the field-name validation as the one
failure. -/
theorem c6_unsupported_field_aborts (lines fields : List String)
    (hok : (Do lines ["MaterialID"]).isOk = true)
    (hbad : ∃ f ∈ fields, f ≠ "MaterialID") :
    Do lines fields = .error .unsupportedField := by
  rw [Do] at hok ⊢
  cases hres : resolveStage lines with
  | error e =>
    rw [hres] at hok
    exact absurd hok Bool.false_ne_true
  | ok p =>
    obtain ⟨nds, mels⟩ := p
    rw [hres] at hok
    have hok2 : (WriteVTK nds mels ["MaterialID"]).isOk = true := hok
    show WriteVTK nds mels fields = .error .unsupportedField
    rw [WriteVTK] at hok2 ⊢
    cases ht : WriteVTKCellTypes mels with
    | error e =>
      rw [ht] at hok2
      exact absurd hok2 Bool.false_ne_true
    | ok types =>
      rw [WriteVTKHeader_bad mels fields hbad]

/-- Witness for C6: the minimal mesh converts with MaterialID, and
requesting a Temperature field aborts with UnsupportedField. -/
theorem c6_unsupported_field_aborts_witness :
    Do c8Lines ["Temperature"] = .error .unsupportedField :=
  c6_unsupported_field_aborts c8Lines ["Temperature"] rfl
    ⟨"Temperature", by simp, by decide⟩

/-- Claim C7: the element scan starts one line past the summary line; a
line without exactly 4 tokens advances the scan by one line; a 4-token
line is a block header whose declared number of following lines (exactly
that many when they are available) are consumed as elements carrying the
header's dimension, owner tag and type; and the element parser contains
no declared-vs-parsed count check, so no input can make it fail with
CountMismatch. -/
theorem c7_element_scan (lines : List String) (fuel : Nat) (i : Int)
    (acc : List MeshElement) (line : String) (a b c d : String)
    (dv ev tv nv : Int) :
    ParseElements lines = parseElementsAux lines (lines.length + 1) 1 []
    ∧ (i < (lines.length : Int) - 1 → pyGet lines i = some line →
        (pySplit line).length ≠ 4 →
        parseElementsAux lines (fuel + 1) i acc =
          parseElementsAux lines fuel (i + 1) acc)
    ∧ (i < (lines.length : Int) - 1 → pyGet lines i = some line →
        pySplit line = [a, b, c, d] →
        pyInt a = some dv → pyInt b = some ev →
        pyInt c = some tv → pyInt d = some nv →
        parseElementsAux lines (fuel + 1) i acc =
          match exMapM (parseElementLine dv ev tv)
              (pySlice lines (i + 1) (i + 1 + nv)) with
          | .error e => .error e
          | .ok elems => parseElementsAux lines fuel (i + 1 + nv) (acc ++ elems))
    ∧ (0 ≤ i → 0 ≤ nv → i + 1 + nv ≤ (lines.length : Int) →
        ((pySlice lines (i + 1) (i + 1 + nv)).length : Int) = nv)
    ∧ (∀ el, parseElementLine dv ev tv line = .ok el →
        el.dim = dv ∧ el.entityTag = ev ∧ el.type = tv)
    ∧ parseElementsAux lines fuel i acc ≠ .error .countMismatch := by
  refine ⟨rfl, parseElementsAux_skip lines fuel i acc line,
    parseElementsAux_header lines fuel i acc line a b c d dv ev tv nv, ?_,
    parseElementLine_ok dv ev tv line,
    parseElementsAux_no_countMismatch lines fuel i acc⟩
  intro h0 h1 h2
  have := pySlice_length_of_bounds lines (i + 1) (i + 1 + nv)
    (by omega) (by omega) h2
  omega

/-- Witness for C7 on the concrete section
`["1 1 1 1", "junk line", "2 1 1 1", "1 1 2"]`: the stray two-token line
at position 1 is skipped, the header at position 2 consumes exactly its
one declared element line, the parsed element carries the header's
dimension, owner tag and type, and no CountMismatch arises. -/
theorem c7_element_scan_witness :
    ParseElements ["1 1 1 1", "junk line", "2 1 1 1", "1 1 2"] =
      parseElementsAux ["1 1 1 1", "junk line", "2 1 1 1", "1 1 2"] 5 1 []
    ∧ parseElementsAux ["1 1 1 1", "junk line", "2 1 1 1", "1 1 2"] 4 1 [] =
        parseElementsAux ["1 1 1 1", "junk line", "2 1 1 1", "1 1 2"] 3 2 []
    ∧ parseElementsAux ["1 1 1 1", "junk line", "2 1 1 1", "1 1 2"] 3 2 [] =
        (match exMapM (parseElementLine 2 1 1)
            (pySlice ["1 1 1 1", "junk line", "2 1 1 1", "1 1 2"] 3 4) with
          | .error e => .error e
          | .ok elems =>
            parseElementsAux ["1 1 1 1", "junk line", "2 1 1 1", "1 1 2"] 2 4
              ([] ++ elems))
    ∧ ((pySlice (["1 1 1 1", "junk line", "2 1 1 1", "1 1 2"] : List String)
        3 4).length : Int) = 1
    ∧ ((⟨1, 2, 1, [1, 2], 1⟩ : MeshElement).dim = 2
        ∧ (⟨1, 2, 1, [1, 2], 1⟩ : MeshElement).entityTag = 1
        ∧ (⟨1, 2, 1, [1, 2], 1⟩ : MeshElement).type = 1)
    ∧ parseElementsAux ["1 1 1 1", "junk line", "2 1 1 1", "1 1 2"] 4 1 [] ≠
        .error .countMismatch :=
  ⟨(c7_element_scan ["1 1 1 1", "junk line", "2 1 1 1", "1 1 2"] 4 1 []
      "" "" "" "" "" 0 0 0 0).1,
   (c7_element_scan ["1 1 1 1", "junk line", "2 1 1 1", "1 1 2"] 3 1 []
      "junk line" "" "" "" "" 0 0 0 0).2.1 (by decide) rfl (by decide),
   (c7_element_scan ["1 1 1 1", "junk line", "2 1 1 1", "1 1 2"] 2 2 []
      "2 1 1 1" "2" "1" "1" "1" 2 1 1 1).2.2.1 (by decide) rfl rfl
      rfl rfl rfl rfl,
   (c7_element_scan ["1 1 1 1", "junk line", "2 1 1 1", "1 1 2"] 2 2 []
      "2 1 1 1" "2" "1" "1" "1" 2 1 1 1).2.2.2.1 (by decide) (by decide)
      (by decide),
   (c7_element_scan ["1 1 1 1", "junk line", "2 1 1 1", "1 1 2"] 2 2 []
      "1 1 2" "" "" "" "" 2 1 1 1).2.2.2.2.1 ⟨1, 2, 1, [1, 2], 1⟩ rfl,
   (c7_element_scan ["1 1 1 1", "junk line", "2 1 1 1", "1 1 2"] 4 1 []
      "" "" "" "" "" 0 0 0 0).2.2.2.2.2⟩

/-- Claim C8: converting the minimal mesh of spec section 8 with the
MaterialID field produces the output with a Points block of 2 points,
exactly one cell record `2 0 1`, one cell-type value 3, and one field
value 20. -/
theorem c8_end_to_end :
    Do c8Lines ["MaterialID"] =
      .ok ("# vtk DataFile Version 2.0\nCreated by Gmsh 4.13.1\nASCII\n"
        ++ "DATASET UNSTRUCTURED_GRID\n"
        ++ "POINTS 2 double \n0 0 0\n1 0 0\n\n"
        ++ "CELLS 1 3\n2 0 1\n\n"
        ++ "CELL_TYPES 1\n3\n\n"
        ++ "CELL_DATA 1\nSCALARS MaterialID int 1\nLOOKUP_TABLE default\n20\n") :=
  rfl

/-- Counterexample to C9 as stated: the record line `1 2 "a b"` with a
quoted name containing internal whitespace splits into four tokens, so
the three-variable unpacking fails and the physical-name parser rejects
the input instead of accepting it. -/
theorem c9_quoted_name_cex :
    ParsePhysicalNames ["1", "1 2 \"a b\""] = .error .badToken
    ∧ pySplit "1 2 \"a b\"" = ["1", "2", "\"a", "b\""] :=
  ⟨rfl, rfl⟩

/-- Claim C9 (amended): the physical-name parser accepts exactly the
record lines that split into three whitespace-delimited tokens
`dimension tag name`; the stored name is the third token with
surrounding whitespace trimmed (a no-op after tokenization), and a line
with any other token count — in particular a quoted name containing
internal whitespace — fails. -/
theorem c9_name_token_rule :
    (∀ line d t nm dv tv, pySplit line = [d, t, nm] →
      pyInt d = some dv → pyInt t = some tv →
      parsePhysLine line = .ok ⟨dv, tv, pyStrip nm⟩)
    ∧ ∀ line, (pySplit line).length ≠ 3 →
        parsePhysLine line = .error .badToken := by
  constructor
  · intro line d t nm dv tv hsp hd ht
    simp only [parsePhysLine, hsp, hd, ht]
  · intro line h
    cases hsp : pySplit line with
    | nil => simp [parsePhysLine, hsp]
    | cons d rest =>
      cases rest with
      | nil => simp [parsePhysLine, hsp]
      | cons t rest2 =>
        cases rest2 with
        | nil => simp [parsePhysLine, hsp]
        | cons nm rest3 =>
          cases rest3 with
          | nil => exfalso; rw [hsp] at h; simp at h
          | cons x rest4 => simp [parsePhysLine, hsp]

/-- Witness for C9: the three-token record `0 10 inlet` parses to its
fields, and the four-token quoted-name line fails. -/
theorem c9_name_token_rule_witness :
    parsePhysLine "0 10 inlet" = .ok ⟨0, 10, pyStrip "inlet"⟩
    ∧ parsePhysLine "1 2 \"a b\"" = .error .badToken :=
  ⟨c9_name_token_rule.1 "0 10 inlet" "0" "10" "inlet" 0 10 rfl rfl rfl,
   c9_name_token_rule.2 "1 2 \"a b\"" (by decide)⟩

/-- Claim C10: the header-writing step returns the loop variable `text`,
never assigned when the field loop body does not run, so an empty field
list makes `WriteVTKHeader` fail with the unbound-variable error; hence
`Do` with an empty fields list never succeeds for any input mesh and
writes no output file (the output exists only as the `.ok` payload). -/
theorem c10_empty_fields_always_fail :
    (∀ els, WriteVTKHeader els [] = .error .unboundVariable)
    ∧ ∀ lines, (Do lines []).isOk = false :=
  ⟨WriteVTKHeader_nil, Do_nil_not_ok⟩

end TPZVtkGenerator

end ObstructionMesh
